import Mathlib

/-!
Shallow embedding of the Optima RUM SDK core
(src/Vuex-GOARABGO/vuex-goarabgo/src/store/actions.js) and proofs about it.

Numbers: JS floating-point timestamps and metric values are modelled as
rationals; JS truthiness of a numeric field is modelled explicitly
(null or 0 is falsy).  Fields that can be null are modelled as Option.
-/

namespace Optima

/-- JS substring test on character lists: pat occurs contiguously in s. -/
def hasSub (pat s : List Char) : Bool :=
  s.tails.any (fun t => pat.isPrefixOf t)

/-- JS String.prototype.includes: strIncludes s pat = s.includes(pat). -/
def strIncludes (s pat : String) : Bool :=
  hasSub pat.data s.data

/-- JS truthiness of a nullable number: null and 0 are falsy. -/
def truthyNum (o : Option ℚ) : Bool :=
  match o with
  | none => false
  | some x => x ≠ 0

/-- Fixed exclusion list for Optima SDK requests (OPTIMA_EXCLUSION_LIST):
these are always excluded and cannot be overridden by user configuration. -/
def OPTIMA_EXCLUSION_LIST : List String :=
  [ "/api/optima/sessions"
  , "/api/optima/events"
  , "/api/optima/resources"
  , "/api/optima/web-vitals"
  , "/api/optima/ajax-calls"
  , "/api/optima/collect"
  , "/api/optima/"
  , "optima.js"
  , "optima.min.js"
  , "optima-sdk.js"
  , "optima-view-based.js" ]

/-- Default third-party exclusion list (DEFAULT_THIRD_PARTY_EXCLUSION_LIST);
users can replace it via config.exclusionList. -/
def DEFAULT_THIRD_PARTY_EXCLUSION_LIST : List String :=
  [ "analytics.google.com"
  , "analytics.twitter.com"
  , "api.cr-relay.com"
  , "api.getkoala.com"
  , "api.segment.io"
  , "api.vector.co"
  , "app.clearbit.com"
  , "bam-cell.nr-data.net"
  , "browser-intake-us5-datadoghq.com"
  , "browser.sentry-cdn.com"
  , "c.6sc.co"
  , "cdn.cr-relay.com"
  , "cdn.debugbear.com"
  , "cdn.getkoala.com"
  , "cdn.heapanalytics.com"
  , "cdn.jsdelivr.net"
  , "cdn.segment.com"
  , "cdn.vector.co"
  , "d-code.liadm.com"
  , "data.debugbear.com"
  , "googleads.g.doubleclick.net"
  , "i.liadm.com"
  , "idx.liadm.com"
  , "ipv6.6sc.co"
  , "j.6sc.co"
  , "js-agent.newrelic.com"
  , "pro.ip-api.com"
  , "px.ads.linkedin.com"
  , "rp.liadm.com"
  , "secure.gravatar.com"
  , "snap.licdn.com"
  , "stats.g.doubleclick.net"
  , "tag.clearbitscripts.com"
  , "unpkg.com"
  , "widget.intercom.io"
  , "www.datadoghq-browser-agent.com"
  , "www.google-analytics.com"
  , "www.google.com"
  , "www.googleadservices.com"
  , "www.googletagmanager.com"
  , "x.clearbitjs.com" ]

/-- SDK configuration: exclusionList is the optional user-provided
third-party exclusion list (config.exclusionList; absent means the
default list applies; JS: config.exclusionList || DEFAULT, where an
array, even an empty one, is truthy). -/
structure SdkConfig where
  exclusionList : Option (List String)
deriving Repr, DecidableEq

/-- isInExclusionList(url, config): a non-string/empty url is not
excluded; Optima patterns are always checked first; the third-party
check uses the user list when present, the default list otherwise. -/
def isInExclusionList (url : String) (config : SdkConfig) : Bool :=
  if url = "" then
    false
  else if OPTIMA_EXCLUSION_LIST.any (fun pattern => strIncludes url pattern) then
    true
  else
    let thirdPartyExclusionList := config.exclusionList.getD DEFAULT_THIRD_PARTY_EXCLUSION_LIST
    thirdPartyExclusionList.any (fun pattern => strIncludes url pattern)

/-! ### RouteChangeDetector: meaningful-change classification -/

/-- Parsed URL (the result of new URL(...) on a well-formed URL). -/
structure URLParts where
  origin : String
  pathname : String
  search : String
  hash : String
deriving Repr, DecidableEq

/-- isMeaningfulRouteChange(oldUrl, newUrl) on two well-formed URLs:
origin change, pathname change, or a hash change where at least one
hash has length greater than 1. -/
def isMeaningfulRouteChange (oldUrl newUrl : URLParts) : Bool :=
  if oldUrl.origin ≠ newUrl.origin then true
  else if oldUrl.pathname ≠ newUrl.pathname then true
  else if oldUrl.hash ≠ newUrl.hash ∧
      (oldUrl.hash.length > 1 ∨ newUrl.hash.length > 1) then true
  else false

/-- The part of RouteChangeDetector state that handleRouteChange touches. -/
structure DetectorUrlState where
  currentUrl : URLParts
deriving Repr, DecidableEq

/-- Outcome of handleRouteChange: either no change at all, a silent URL
update (non-meaningful change), or a view transition to the new URL. -/
inductive RouteOutcome where
  | noChange : RouteOutcome
  | urlUpdatedOnly : RouteOutcome
  | viewTransition : RouteOutcome
deriving Repr, DecidableEq

/-- handleRouteChange(method, newUrl, triggerTime), restricted to its URL
logic: returns the updated detector state and what happened.  A URL equal
to the tracked one is ignored; a non-meaningful change only updates the
tracked URL; a meaningful change updates the URL and starts a new
route_change view. -/
def handleRouteChange (st : DetectorUrlState) (newUrl : URLParts) :
    DetectorUrlState × RouteOutcome :=
  if newUrl = st.currentUrl then
    (st, RouteOutcome.noChange)
  else if ¬ isMeaningfulRouteChange st.currentUrl newUrl then
    ({ currentUrl := newUrl }, RouteOutcome.urlUpdatedOnly)
  else
    ({ currentUrl := newUrl }, RouteOutcome.viewTransition)

/-! ### ViewScopedResourceCollector: route-change resource filter times -/

/-- The view fields that the resource filter-time computations read. -/
structure RCView where
  vtype : String
  startTime : ℚ
  routeTriggerTime : Option ℚ
  interactionBaseline : Option ℚ
deriving Repr, DecidableEq

/-- ViewScopedResourceCollector.calculateRouteChangeFilterTime: the route
trigger time takes priority; the interaction baseline is only a fallback;
the view start time is the final fallback.  Null and 0 are falsy. -/
def calculateRouteChangeFilterTime (currentView : RCView) : ℚ :=
  if truthyNum currentView.routeTriggerTime then
    currentView.routeTriggerTime.getD 0
  else if truthyNum currentView.interactionBaseline then
    currentView.interactionBaseline.getD 0
  else
    currentView.startTime

/-- The filter time computed inside
ViewScopedResourceCollector.processResourceEntries for a route_change
view: the interaction baseline takes priority; otherwise
routeTriggerTime || startTime. -/
def processEntriesFilterTime (currentView : RCView) : ℚ :=
  if truthyNum currentView.interactionBaseline then
    currentView.interactionBaseline.getD 0
  else if truthyNum currentView.routeTriggerTime then
    currentView.routeTriggerTime.getD 0
  else
    currentView.startTime

/-- The inclusion decision of collectExistingResources for one buffered
entry: initial views include everything, route_change views require
entry.startTime ≥ the filter time from calculateRouteChangeFilterTime. -/
def collectExistingShouldInclude (currentView : RCView) (entryStartTime : ℚ) : Bool :=
  if currentView.vtype = "initial" then true
  else entryStartTime ≥ calculateRouteChangeFilterTime currentView

/-- The inclusion decision of processResourceEntries for one observed
entry (the time check only; dedup and URL checks aside): initial views
include everything, route_change views require
entry.startTime ≥ the interaction-first filter time. -/
def processEntriesShouldInclude (currentView : RCView) (entryStartTime : ℚ) : Bool :=
  if currentView.vtype = "initial" then true
  else entryStartTime ≥ processEntriesFilterTime currentView

/-! ### ViewManager: view lifecycle state machine -/

/-- A View object, with the fields the lifecycle claims are about.
Payload items in the four data containers are abstracted as naturals. -/
structure View where
  id : ℕ
  vtype : String
  url : String
  isCompleted : Bool
  isActive : Bool
  completionReason : Option String
  resources : List ℕ
  ajaxRequests : List ℕ
  errors : List ℕ
  events : List ℕ
deriving Repr, DecidableEq

/-- An entry of viewHistory: archiveView keeps the view fields but
replaces the four containers by their lengths. -/
structure ArchivedView where
  id : ℕ
  vtype : String
  url : String
  isCompleted : Bool
  isActive : Bool
  completionReason : Option String
  resources : ℕ
  ajaxRequests : ℕ
  errors : ℕ
  events : ℕ
deriving Repr, DecidableEq

/-- The trimmed copy pushed by ViewManager.archiveView. -/
def trimView (v : View) : ArchivedView :=
  { id := v.id
  , vtype := v.vtype
  , url := v.url
  , isCompleted := v.isCompleted
  , isActive := v.isActive
  , completionReason := v.completionReason
  , resources := v.resources.length
  , ajaxRequests := v.ajaxRequests.length
  , errors := v.errors.length
  , events := v.events.length }

/-- maxViewHistory = 10. -/
def maxViewHistory : ℕ := 10

/-- ViewManager.archiveView: push the trimmed copy, then shift the oldest
entry when the history exceeds maxViewHistory. -/
def archiveView (viewHistory : List ArchivedView) (v : View) : List ArchivedView :=
  let pushed := viewHistory ++ [trimView v]
  if pushed.length > maxViewHistory then pushed.tail else pushed

/-- ViewManager state: at most one current view, the archive, and the
UUID generator abstracted as a fresh-id counter. -/
structure VMState where
  currentView : Option View
  viewHistory : List ArchivedView
  nextId : ℕ
deriving Repr, DecidableEq

/-- The initial ViewManager state (constructor). -/
def VMState.init : VMState :=
  { currentView := none, viewHistory := [], nextId := 0 }

/-- ViewManager.createView: a fresh view is active, not completed, with
empty containers. -/
def createView (id : ℕ) (vtype url : String) : View :=
  { id := id
  , vtype := vtype
  , url := url
  , isCompleted := false
  , isActive := true
  , completionReason := none
  , resources := []
  , ajaxRequests := []
  , errors := []
  , events := [] }

/-- ViewManager.completeView(reason): a no-op when there is no current
view or it is already completed; otherwise mark it completed and
inactive, record the reason and archive the trimmed copy. -/
def completeView (s : VMState) (reason : String) : VMState :=
  match s.currentView with
  | none => s
  | some v =>
    if v.isCompleted then s
    else
      let completed := { v with
        isCompleted := true
      , isActive := false
      , completionReason := some reason }
      { s with
        currentView := some completed
      , viewHistory := archiveView s.viewHistory completed }

/-- ViewManager.startNewView(type, url): complete the current view if it
exists and is not completed, then install a fresh active view. -/
def startNewView (s : VMState) (vtype url : String) : VMState :=
  let s1 :=
    match s.currentView with
    | some v => if ¬ v.isCompleted then completeView s "new_view_started" else s
    | none => s
  { s1 with
    currentView := some (createView s1.nextId vtype url)
  , nextId := s1.nextId + 1 }

/-- ViewManager.addResource: fails without an active current view,
otherwise appends to the view and leaves its lifecycle flags alone. -/
def addResource (s : VMState) (r : ℕ) : VMState :=
  match s.currentView with
  | none => s
  | some v =>
    if v.isActive then
      { s with currentView := some { v with resources := v.resources ++ [r] } }
    else s

/-- ViewManager.addAjaxRequest, same guard as addResource. -/
def addAjaxRequest (s : VMState) (r : ℕ) : VMState :=
  match s.currentView with
  | none => s
  | some v =>
    if v.isActive then
      { s with currentView := some { v with ajaxRequests := v.ajaxRequests ++ [r] } }
    else s

/-- ViewManager.addError, same guard as addResource. -/
def addError (s : VMState) (r : ℕ) : VMState :=
  match s.currentView with
  | none => s
  | some v =>
    if v.isActive then
      { s with currentView := some { v with errors := v.errors ++ [r] } }
    else s

/-- ViewManager.addEvent, same guard as addResource. -/
def addEvent (s : VMState) (r : ℕ) : VMState :=
  match s.currentView with
  | none => s
  | some v =>
    if v.isActive then
      { s with currentView := some { v with events := v.events ++ [r] } }
    else s

/-- One ViewManager operation. -/
inductive VMOp where
  | startNewView (vtype url : String)
  | completeView (reason : String)
  | addResource (r : ℕ)
  | addAjaxRequest (r : ℕ)
  | addError (r : ℕ)
  | addEvent (r : ℕ)
deriving Repr, DecidableEq

/-- Interpret one operation. -/
def vmStep (s : VMState) : VMOp → VMState
  | VMOp.startNewView vtype url => startNewView s vtype url
  | VMOp.completeView reason => completeView s reason
  | VMOp.addResource r => addResource s r
  | VMOp.addAjaxRequest r => addAjaxRequest s r
  | VMOp.addError r => addError s r
  | VMOp.addEvent r => addEvent s r

/-- Run a sequence of operations from a state. -/
def vmRun (s : VMState) (ops : List VMOp) : VMState :=
  ops.foldl vmStep s

/-- All (id, isCompleted, isActive) records reachable in a state: the
current view plus the archived copies. -/
def vmViews (s : VMState) : List (ℕ × Bool × Bool) :=
  (match s.currentView with
   | none => []
   | some v => [(v.id, v.isCompleted, v.isActive)]) ++
  s.viewHistory.map (fun a => (a.id, a.isCompleted, a.isActive))

/-- Number of view records marked active in a state. -/
def vmActiveCount (s : VMState) : ℕ :=
  (vmViews s).countP (fun w => w.2.2 = true)

/-- A view id is recorded as completed somewhere in the state. -/
def vmCompleted (s : VMState) (i : ℕ) : Bool :=
  (vmViews s).any (fun w => w.1 = i ∧ w.2.1 = true)

/-- Structural invariant of the ViewManager state: archived views are
completed and inactive, every recorded id is below the fresh-id counter,
a completed current view is inactive, and an archived copy of the
current view forces the current view to be completed. -/
def vmInv (s : VMState) : Prop :=
  (∀ a ∈ s.viewHistory, a.isCompleted = true ∧ a.isActive = false) ∧
  (∀ w ∈ vmViews s, w.1 < s.nextId) ∧
  (∀ v : View, s.currentView = some v → v.isCompleted = true → v.isActive = false) ∧
  (∀ a ∈ s.viewHistory, ∀ v : View, s.currentView = some v → v.id = a.id →
     v.isCompleted = true)

/-- Every copy of view id i in the state is completed and inactive. -/
def allCopiesCompleted (s : VMState) (i : ℕ) : Prop :=
  ∀ w ∈ vmViews s, w.1 = i → w.2.1 = true ∧ w.2.2 = false

/-! ### ViewScopedWebVitals.setupCLS: the CLS accumulator -/

/-- A layout-shift performance entry, as read by the CLS observer. -/
structure LayoutShiftEntry where
  startTime : ℚ
  value : ℚ
  hadRecentInput : Bool
deriving Repr, DecidableEq

/-- One step of the CLS observer callback: a shift contributes its value
additively exactly when it started at or after view start and had no
recent input; otherwise clsValue is unchanged. -/
def clsStep (viewStartTime : ℚ) (clsValue : ℚ) (entry : LayoutShiftEntry) : ℚ :=
  if entry.startTime ≥ viewStartTime ∧ entry.hadRecentInput = false then
    clsValue + entry.value
  else
    clsValue

/-- The CLS value after the observer has processed a list of entries. -/
def clsAccumulate (viewStartTime clsValue : ℚ) (entries : List LayoutShiftEntry) : ℚ :=
  entries.foldl (clsStep viewStartTime) clsValue

/-! ### ViewScopedLoadingTimeTracker -/

/-- quietPeriod = 200 ms. -/
def quietPeriod : ℚ := 200

/-- maxWaitTime = 20000 ms. -/
def maxWaitTime : ℚ := 20000

/-- ViewScopedLoadingTimeTracker.checkForCompletion, as a pure decision:
given the view type, the time since the last recorded activity, the
total time since the baseline and the sizes of the pending sets, return
the completion reason, or none to continue tracking.  Initial views
report max_time_reached whenever 20 s have passed, route changes check
the quiet period first. -/
def checkForCompletion (viewType : String) (timeSinceLastActivity totalTime : ℚ)
    (pendingRequests pendingResources : ℕ) : Option String :=
  let hasPendingActivity := pendingRequests > 0 ∨ pendingResources > 0
  let quietPeriodMet := timeSinceLastActivity ≥ quietPeriod ∧ ¬ hasPendingActivity
  let maxTimeReached := totalTime ≥ 20000
  if viewType = "initial" then
    if quietPeriodMet ∨ maxTimeReached then
      some (if maxTimeReached then "max_time_reached" else "activity_quiet")
    else none
  else
    if quietPeriodMet then some "activity_quiet"
    else if maxTimeReached then some "route_change_timeout"
    else none

/-- The tracker state that complete() and cleanup() touch.  The JS Sets
are modelled as lists (only their sizes and emptiness matter here). -/
structure TrackerState where
  baselineTime : ℚ
  lastActivityTime : ℚ
  isComplete : Bool
  isTracking : Bool
  activitySources : List String
  detailedActivities : List (String × ℚ)
  pendingRequests : List String
  pendingResources : List String
deriving Repr, DecidableEq

/-- The loading_time web-vital record pushed by complete(). -/
structure LoadingRecord where
  loadingTime : ℤ
  reason : String
  activitySources : List String
  detailedActivities : List (String × ℚ)
  pendingRequestsCount : ℕ
  pendingResourcesCount : ℕ
deriving Repr, DecidableEq

/-- ViewScopedLoadingTimeTracker.cleanup: disconnect observers, restore
the patched prototypes and clear the pending sets and activity sources. -/
def trackerCleanup (s : TrackerState) : TrackerState :=
  { s with
    pendingRequests := []
  , pendingResources := []
  , activitySources := [] }

/-- ViewScopedLoadingTimeTracker.complete(reason): a no-op when already
complete; otherwise capture the activity sources and the detailed ring,
run cleanup, and only then build the loading_time record, whose pending
counts therefore read the cleared sets. -/
def trackerComplete (s : TrackerState) (reason : String) :
    TrackerState × Option LoadingRecord :=
  if s.isComplete then (s, none)
  else
    let endTime := s.lastActivityTime
    let loadingTime := round (endTime - s.baselineTime)
    let capturedSources := s.activitySources
    let capturedDetails := s.detailedActivities
    let cleaned := trackerCleanup { s with isComplete := true, isTracking := false }
    (cleaned,
     some { loadingTime := loadingTime
          , reason := reason
          , activitySources := capturedSources
          , detailedActivities := capturedDetails
          , pendingRequestsCount := cleaned.pendingRequests.length
          , pendingResourcesCount := cleaned.pendingResources.length })

/-! ### ContinuousMetricsManager -/

/-- The metric snapshot produced by getCurrentContinuousMetrics: one
optional value per web vital plus the three data counts. -/
structure ContMetrics where
  CLS : Option ℚ
  INP : Option ℚ
  LCP : Option ℚ
  FCP : Option ℚ
  FID : Option ℚ
  TTFB : Option ℚ
  loading_time : Option ℚ
  resourceCount : ℕ
  ajaxCount : ℕ
  errorCount : ℕ
deriving Repr, DecidableEq

/-- ContinuousMetricsManager.hasSignificantCLSChange with the 0.01
threshold: null current is never significant; a null baseline is
significant only for a positive current value. -/
def hasSignificantCLSChange (current last : Option ℚ) : Bool :=
  match current with
  | none => false
  | some c =>
    match last with
    | none => c > 0
    | some l => |c - l| ≥ (1 : ℚ) / 100

/-- ContinuousMetricsManager.hasSignificantINPChange with the 50 ms
threshold. -/
def hasSignificantINPChange (current last : Option ℚ) : Bool :=
  match current with
  | none => false
  | some c =>
    match last with
    | none => c > 0
    | some l => |c - l| ≥ (50 : ℚ)

/-- One of the new-vital checks of hasSignificantWebVitalsChange:
current non-null while the baseline was null. -/
def newVitalAppeared (current last : Option ℚ) : Bool :=
  current.isSome && last.isNone

/-- Read a vital from the last-sent baseline; an empty baseline ({}
in the JS code, none here) has every vital null. -/
def lastVital (last : Option ContMetrics) (f : ContMetrics → Option ℚ) : Option ℚ :=
  match last with
  | none => none
  | some m => f m

/-- ContinuousMetricsManager.hasSignificantWebVitalsChange: CLS or INP
threshold changes, or a newly appeared LCP/FCP/FID/TTFB/loading_time. -/
def hasSignificantWebVitalsChange (current : ContMetrics) (last : Option ContMetrics) : Bool :=
  hasSignificantCLSChange current.CLS (lastVital last (fun m => m.CLS)) ||
  hasSignificantINPChange current.INP (lastVital last (fun m => m.INP)) ||
  newVitalAppeared current.LCP (lastVital last (fun m => m.LCP)) ||
  newVitalAppeared current.FCP (lastVital last (fun m => m.FCP)) ||
  newVitalAppeared current.FID (lastVital last (fun m => m.FID)) ||
  newVitalAppeared current.TTFB (lastVital last (fun m => m.TTFB)) ||
  newVitalAppeared current.loading_time (lastVital last (fun m => m.loading_time))

/-- Read a count from the last-sent baseline (last.count || 0). -/
def lastCount (last : Option ContMetrics) (f : ContMetrics → ℕ) : ℕ :=
  match last with
  | none => 0
  | some m => f m

/-- ContinuousMetricsManager.hasSignificantDataChange: resources grew by
at least 5, AJAX by at least 3, or any new error. -/
def hasSignificantDataChange (current : ContMetrics) (last : Option ContMetrics) : Bool :=
  (decide (current.resourceCount > lastCount last (fun m => m.resourceCount)) &&
   decide (current.resourceCount - lastCount last (fun m => m.resourceCount) ≥ 5)) ||
  (decide (current.ajaxCount > lastCount last (fun m => m.ajaxCount)) &&
   decide (current.ajaxCount - lastCount last (fun m => m.ajaxCount) ≥ 3)) ||
  decide (current.errorCount > lastCount last (fun m => m.errorCount))

/-- ContinuousMetricsManager.hasAnyData: some vital has a value or some
count is positive. -/
def hasAnyData (m : ContMetrics) : Bool :=
  m.CLS.isSome || m.INP.isSome || m.LCP.isSome || m.FCP.isSome ||
  m.FID.isSome || m.TTFB.isSome || m.loading_time.isSome ||
  decide (m.resourceCount > 0) || decide (m.ajaxCount > 0) || decide (m.errorCount > 0)

/-- ContinuousMetricsManager.hasSignificantChanges: web-vital changes,
data changes, or a first update (empty baseline) when any data exists. -/
def hasSignificantChanges (current : ContMetrics) (last : Option ContMetrics) : Bool :=
  hasSignificantWebVitalsChange current last ||
  hasSignificantDataChange current last ||
  (last.isNone && hasAnyData current)

/-- The spec reading of has_significant_changes for comparison with the
code: CLS changed by at least 0.01, INP by at least 50, a previously
null vital now has a value, resources grew by at least 5, AJAX by at
least 3, or the error count increased. -/
def specSignificantChanges (current : ContMetrics) (last : Option ContMetrics) : Bool :=
  (match current.CLS, lastVital last (fun m => m.CLS) with
   | some c, some l => decide (|c - l| ≥ (1 : ℚ) / 100)
   | _, _ => false) ||
  (match current.INP, lastVital last (fun m => m.INP) with
   | some c, some l => decide (|c - l| ≥ (50 : ℚ))
   | _, _ => false) ||
  newVitalAppeared current.CLS (lastVital last (fun m => m.CLS)) ||
  newVitalAppeared current.INP (lastVital last (fun m => m.INP)) ||
  newVitalAppeared current.LCP (lastVital last (fun m => m.LCP)) ||
  newVitalAppeared current.FCP (lastVital last (fun m => m.FCP)) ||
  newVitalAppeared current.FID (lastVital last (fun m => m.FID)) ||
  newVitalAppeared current.TTFB (lastVital last (fun m => m.TTFB)) ||
  newVitalAppeared current.loading_time (lastVital last (fun m => m.loading_time)) ||
  (decide (current.resourceCount > lastCount last (fun m => m.resourceCount)) &&
   decide (current.resourceCount - lastCount last (fun m => m.resourceCount) ≥ 5)) ||
  (decide (current.ajaxCount > lastCount last (fun m => m.ajaxCount)) &&
   decide (current.ajaxCount - lastCount last (fun m => m.ajaxCount) ≥ 3)) ||
  decide (current.errorCount > lastCount last (fun m => m.errorCount))

/-! ### Error capture: content hash and dedup sampling -/

/-- Wrap an integer to the signed 32-bit range (the JS ToInt32
conversion applied by the bitwise operators). -/
def toInt32 (n : ℤ) : ℤ :=
  (n + 2 ^ 31) % 2 ^ 32 - 2 ^ 31

/-- One step of the generateErrorId hash:
hash = ((hash << 5) - hash) + char; hash = hash & hash.
The shift wraps at 32 bits; the subtraction and addition are exact
float64 arithmetic; the final self-and truncates back to 32 bits. -/
def hashStep (hash : ℤ) (c : ℕ) : ℤ :=
  toInt32 (toInt32 (hash * 32) - hash + c)

/-- The hash of generateErrorId over a list of char codes. -/
def jsHash (codes : List ℕ) : ℤ :=
  codes.foldl hashStep 0

/-- Lowercase hex rendering of a natural (Number.prototype.toString(16)
on a non-negative integer). -/
def natToHex (n : ℕ) : String :=
  String.mk (Nat.toDigits 16 n)

/-- generateErrorId(type, message, source, stack): hash of
type:message:source:stack-head, where a null or empty stack contributes
the empty string and otherwise only the first 150 characters count. -/
def generateErrorId (errType message source : String) (stack : Option String) : String :=
  let stackPart :=
    match stack with
    | none => ""
    | some st => if st.isEmpty then "" else String.mk (st.data.take 150)
  let errorString := errType ++ ":" ++ message ++ ":" ++ source ++ ":" ++ stackPart
  "err_" ++ natToHex (Int.natAbs (jsHash (errorString.data.map Char.toNat)))

/-- A buffered error record. -/
structure ErrData where
  errType : String
  message : String
  source : String
  stack : Option String
  timestamp : ℚ
  errorId : String
deriving Repr, DecidableEq

/-- Build the error record the capture paths store: the error_id is the
content hash of the other fields. -/
def mkErrData (errType message source : String) (stack : Option String) (ts : ℚ) : ErrData :=
  { errType := errType
  , message := message
  , source := source
  , stack := stack
  , timestamp := ts
  , errorId := generateErrorId errType message source stack }

/-- The exact-duplicate test inside shouldSampleError: compare by
error_id when both sides have a (non-empty) one, by the error
properties otherwise. -/
def errDupCheck (err errorData : ErrData) : Bool :=
  if ¬ err.errorId.isEmpty ∧ ¬ errorData.errorId.isEmpty then
    err.errorId = errorData.errorId
  else
    err.errType = errorData.errType ∧
    err.message = errorData.message ∧
    err.source = errorData.source ∧
    err.stack = errorData.stack

/-- The near-duplicate test inside shouldSampleError: identical message
and source, strictly less than 100 ms after the buffered entry. -/
def errSimilarCheck (err errorData : ErrData) : Bool :=
  err.message = errorData.message ∧
  err.source = errorData.source ∧
  errorData.timestamp - err.timestamp < 100

/-- shouldSampleError(sdk, errorData): always record while fewer than 5
errors are buffered; otherwise drop exact duplicates (anywhere in the
buffer), then drop near-duplicates of one of the last 5 entries. -/
def shouldSampleError (bufferErrors : List ErrData) (errorData : ErrData) : Bool :=
  if bufferErrors.length < 5 then true
  else
    let isDuplicate := bufferErrors.any (fun err => errDupCheck err errorData)
    if isDuplicate then false
    else
      let recentErrors := bufferErrors.drop (bufferErrors.length - 5)
      let isSimilar := recentErrors.any (fun err => errSimilarCheck err errorData)
      ¬ isSimilar

/-- storeErrorData restricted to the buffer: append exactly when
shouldSampleError accepts, and report whether the error was recorded. -/
def storeErrorData (bufferErrors : List ErrData) (errorData : ErrData) :
    List ErrData × Bool :=
  if shouldSampleError bufferErrors errorData then
    (bufferErrors ++ [errorData], true)
  else
    (bufferErrors, false)

/-! ## Theorems -/

/-- C9: every URL containing one of the fixed internal Optima SDK
exclusion patterns is excluded under every configuration, including a
custom exclusionList; and for other URLs a user-provided exclusionList
fully replaces the default third-party list. -/
theorem optima_exclusion_never_overridden :
    (∀ (url : String) (config : SdkConfig),
       OPTIMA_EXCLUSION_LIST.any (fun pattern => strIncludes url pattern) = true →
       isInExclusionList url config = true) ∧
    (∀ (url : String) (userList : List String), url ≠ "" →
       OPTIMA_EXCLUSION_LIST.any (fun pattern => strIncludes url pattern) = false →
       isInExclusionList url { exclusionList := some userList } =
         userList.any (fun pattern => strIncludes url pattern)) := by
  constructor
  · intro url config h
    by_cases hu : url = ""
    · rw [hu] at h
      exact absurd h (by decide)
    · simp [isInExclusionList, hu, h]
  · intro url userList hu h
    simp [isInExclusionList, hu, h]

/-- Witness for C9 at concrete URLs: an Optima API URL is excluded even
when the configuration carries a custom exclusionList, and for a
non-Optima URL an empty user list disables the default list. -/
theorem optima_exclusion_never_overridden_witness :
    (OPTIMA_EXCLUSION_LIST.any
        (fun pattern => strIncludes "https://x.dev/api/optima/collect" pattern) = true ∧
     isInExclusionList "https://x.dev/api/optima/collect"
        { exclusionList := some ["my.cdn"] } = true) ∧
    ("https://cdn.jsdelivr.net/a.js" ≠ "" ∧
     OPTIMA_EXCLUSION_LIST.any
        (fun pattern => strIncludes "https://cdn.jsdelivr.net/a.js" pattern) = false ∧
     isInExclusionList "https://cdn.jsdelivr.net/a.js" { exclusionList := some [] } =
       List.any [] (fun pattern => strIncludes "https://cdn.jsdelivr.net/a.js" pattern)) :=
  ⟨⟨by decide, optima_exclusion_never_overridden.1 _ _ (by decide)⟩,
   ⟨by decide, by decide,
    optima_exclusion_never_overridden.2 _ _ (by decide) (by decide)⟩⟩

/-- C8: a URL change is meaningful exactly when the origins differ, the
pathnames differ, or the hashes differ with at least one hash longer
than one character; and a pure query-string change only updates the
tracked URL, with no view transition. -/
theorem meaningful_route_change_spec :
    (∀ oldUrl newUrl : URLParts,
       isMeaningfulRouteChange oldUrl newUrl = true ↔
         (oldUrl.origin ≠ newUrl.origin ∨ oldUrl.pathname ≠ newUrl.pathname ∨
          (oldUrl.hash ≠ newUrl.hash ∧
           (oldUrl.hash.length > 1 ∨ newUrl.hash.length > 1)))) ∧
    (∀ (st : DetectorUrlState) (newUrl : URLParts),
       st.currentUrl.origin = newUrl.origin →
       st.currentUrl.pathname = newUrl.pathname →
       st.currentUrl.hash = newUrl.hash →
       st.currentUrl.search ≠ newUrl.search →
       handleRouteChange st newUrl =
         ({ currentUrl := newUrl }, RouteOutcome.urlUpdatedOnly)) := by
  constructor
  · intro o n
    unfold isMeaningfulRouteChange
    split_ifs with h1 h2 h3 <;> simp_all
  · intro st n h1 h2 h3 h4
    have hne : ¬ n = st.currentUrl := by
      intro he
      exact h4 (by rw [he])
    have hm : ¬ isMeaningfulRouteChange st.currentUrl n = true := by
      unfold isMeaningfulRouteChange
      simp [h1, h2, h3]
    unfold handleRouteChange
    simp [hne, hm]

/-- Witness for C8 at a concrete query-only change. -/
theorem meaningful_route_change_spec_witness :
    ((URLParts.mk "https://a.com" "/p" "?q=1" "").origin = "https://a.com" ∧
     (URLParts.mk "https://a.com" "/p" "?q=1" "").search ≠ "?q=2") ∧
    handleRouteChange { currentUrl := URLParts.mk "https://a.com" "/p" "?q=1" "" }
        (URLParts.mk "https://a.com" "/p" "?q=2" "") =
      ({ currentUrl := URLParts.mk "https://a.com" "/p" "?q=2" "" },
       RouteOutcome.urlUpdatedOnly) :=
  ⟨⟨by decide, by decide⟩,
   meaningful_route_change_spec.2 _ _ (by decide) (by decide) (by decide) (by decide)⟩

/-- C1 counterexample: a route_change view with a recorded interaction
baseline of 100 ms and a pushstate route-trigger time of 150 ms.  The
filter time that calculateRouteChangeFilterTime produces, and that
collectExistingResources uses to decide membership, is the pushstate
time 150, not the click baseline 100: a buffered resource starting at
120 ms, after the click, is excluded. -/
theorem route_filter_time_counterexample :
    calculateRouteChangeFilterTime
        { vtype := "route_change", startTime := 160,
          routeTriggerTime := some 150, interactionBaseline := some 100 } = 150 ∧
    (150 : ℚ) ≠ 100 ∧
    collectExistingShouldInclude
        { vtype := "route_change", startTime := 160,
          routeTriggerTime := some 150, interactionBaseline := some 100 } 120 = false ∧
    ((100 : ℚ) ≤ 120) := by
  decide

/-- C1 amended: when a route_change view records both baselines, the
processResourceEntries path filters against the interaction baseline,
but the calculateRouteChangeFilterTime path (used by
collectExistingResources and processResourceEntry) filters against the
route-trigger time. -/
theorem route_filter_time_priorities (v : RCView)
    (hb : truthyNum v.interactionBaseline = true)
    (ht : truthyNum v.routeTriggerTime = true) :
    processEntriesFilterTime v = v.interactionBaseline.getD 0 ∧
    calculateRouteChangeFilterTime v = v.routeTriggerTime.getD 0 ∧
    (v.vtype ≠ "initial" →
      ∀ t : ℚ,
        processEntriesShouldInclude v t = decide (v.interactionBaseline.getD 0 ≤ t) ∧
        collectExistingShouldInclude v t = decide (v.routeTriggerTime.getD 0 ≤ t)) := by
  refine ⟨?_, ?_, ?_⟩
  · unfold processEntriesFilterTime
    simp [hb]
  · unfold calculateRouteChangeFilterTime
    simp [ht]
  · intro hv t
    constructor
    · unfold processEntriesShouldInclude processEntriesFilterTime
      simp [hv, hb]
    · unfold collectExistingShouldInclude calculateRouteChangeFilterTime
      simp [hv, ht]

/-- Witness for C1 amended at the 50 ms click-to-pushstate scenario. -/
theorem route_filter_time_priorities_witness :
    (truthyNum (some (100 : ℚ)) = true ∧ truthyNum (some (150 : ℚ)) = true) ∧
    (processEntriesFilterTime
        { vtype := "route_change", startTime := 160,
          routeTriggerTime := some 150, interactionBaseline := some 100 } =
      (some (100 : ℚ)).getD 0 ∧
     calculateRouteChangeFilterTime
        { vtype := "route_change", startTime := 160,
          routeTriggerTime := some 150, interactionBaseline := some 100 } =
      (some (150 : ℚ)).getD 0 ∧
     (("route_change" : String) ≠ "initial" →
       ∀ t : ℚ,
         processEntriesShouldInclude
             { vtype := "route_change", startTime := 160,
               routeTriggerTime := some 150, interactionBaseline := some 100 } t =
           decide ((some (100 : ℚ)).getD 0 ≤ t) ∧
         collectExistingShouldInclude
             { vtype := "route_change", startTime := 160,
               routeTriggerTime := some 150, interactionBaseline := some 100 } t =
           decide ((some (150 : ℚ)).getD 0 ≤ t))) :=
  ⟨⟨by decide, by decide⟩,
   route_filter_time_priorities _ (by decide) (by decide)⟩

/-- Helper: the CLS step never lowers the value when the entry value is
non-negative. -/
theorem clsStep_le_of_nonneg (vs c : ℚ) (e : LayoutShiftEntry) (h : 0 ≤ e.value) :
    c ≤ clsStep vs c e := by
  unfold clsStep
  split
  · linarith
  · exact le_refl c

/-- C7: within one view, CLS only ever accumulates additively: a shift
that started at or after view start with no recent input adds its value,
every other shift leaves CLS unchanged, and (for the browser-guaranteed
non-negative shift values) the recorded CLS value never decreases, both
entry by entry and over any batch. -/
theorem cls_monotone_nondecreasing :
    (∀ (vs c : ℚ) (e : LayoutShiftEntry),
       e.startTime ≥ vs ∧ e.hadRecentInput = false → clsStep vs c e = c + e.value) ∧
    (∀ (vs c : ℚ) (e : LayoutShiftEntry),
       ¬ (e.startTime ≥ vs ∧ e.hadRecentInput = false) → clsStep vs c e = c) ∧
    (∀ (vs c : ℚ) (entries : List LayoutShiftEntry) (e : LayoutShiftEntry),
       0 ≤ e.value →
       clsAccumulate vs c entries ≤ clsAccumulate vs c (entries ++ [e])) ∧
    (∀ (vs c : ℚ) (entries : List LayoutShiftEntry),
       (∀ e ∈ entries, 0 ≤ e.value) → c ≤ clsAccumulate vs c entries) := by
  refine ⟨?_, ?_, ?_, ?_⟩
  · intro vs c e h
    unfold clsStep
    simp [h]
  · intro vs c e h
    unfold clsStep
    simp [h]
  · intro vs c entries e h
    unfold clsAccumulate
    rw [List.foldl_append]
    exact clsStep_le_of_nonneg vs _ e h
  · intro vs c entries h
    induction entries generalizing c with
    | nil => exact le_refl c
    | cons e es ih =>
      have h1 : c ≤ clsStep vs c e :=
        clsStep_le_of_nonneg vs c e (h e (by simp))
      have h2 : clsStep vs c e ≤ clsAccumulate vs (clsStep vs c e) es :=
        ih (clsStep vs c e) (fun x hx => h x (by simp [hx]))
      exact le_trans h1 h2

/-- Witness for C7 at a concrete shift trace: a qualifying shift adds,
a shift with recent input is ignored, and the accumulated value never
drops. -/
theorem cls_monotone_nondecreasing_witness :
    ((LayoutShiftEntry.mk 120 1 false).startTime ≥ (100 : ℚ) ∧
       (LayoutShiftEntry.mk 120 1 false).hadRecentInput = false) ∧
    clsStep 100 0 (LayoutShiftEntry.mk 120 1 false) = 0 + 1 ∧
    (¬ ((LayoutShiftEntry.mk 130 2 true).startTime ≥ (100 : ℚ) ∧
        (LayoutShiftEntry.mk 130 2 true).hadRecentInput = false)) ∧
    clsStep 100 1 (LayoutShiftEntry.mk 130 2 true) = 1 ∧
    (∀ e ∈ [LayoutShiftEntry.mk 120 1 false,
            LayoutShiftEntry.mk 130 2 true], (0 : ℚ) ≤ e.value) ∧
    (0 : ℚ) ≤ clsAccumulate 100 0
        [LayoutShiftEntry.mk 120 1 false, LayoutShiftEntry.mk 130 2 true] :=
  ⟨⟨by decide, by decide⟩,
   cls_monotone_nondecreasing.1 100 0 _ ⟨by decide, by decide⟩,
   by decide,
   cls_monotone_nondecreasing.2.1 100 1 _ (by decide),
   by decide,
   cls_monotone_nondecreasing.2.2.2 100 0 _ (by decide)⟩

/-- C3 counterexample: at a completion check of an initial view where
the full 200 ms quiet period has elapsed, nothing is pending, and
20000 ms have passed since the baseline, the tracker completes with
max_time_reached, not activity_quiet, so the claimed iff fails. -/
theorem loading_quiet_reason_counterexample :
    checkForCompletion "initial" 200 20000 0 0 = some "max_time_reached" ∧
    quietPeriod ≤ (200 : ℚ) ∧
    ¬ ((0 : ℕ) > 0 ∨ (0 : ℕ) > 0) ∧
    checkForCompletion "initial" 200 20000 0 0 ≠ some "activity_quiet" := by
  decide

/-- C3 amended: a completion check reports activity_quiet exactly when
the quiet period has elapsed with nothing pending and, for an initial
view, the 20000 ms ceiling has not yet been hit; when the quiet
conditions fail and 20000 ms have elapsed it reports the view-type
timeout variant, and otherwise it keeps tracking. -/
theorem loading_completion_reason_characterization
    (vt : String) (t tot : ℚ) (pr ps : ℕ) :
    (checkForCompletion vt t tot pr ps = some "activity_quiet" ↔
       (quietPeriod ≤ t ∧ pr = 0 ∧ ps = 0 ∧ (vt = "initial" → tot < 20000))) ∧
    (¬ (quietPeriod ≤ t ∧ pr = 0 ∧ ps = 0) → (20000 : ℚ) ≤ tot →
       checkForCompletion vt t tot pr ps =
         some (if vt = "initial" then "max_time_reached" else "route_change_timeout")) ∧
    (¬ (quietPeriod ≤ t ∧ pr = 0 ∧ ps = 0) → tot < 20000 →
       checkForCompletion vt t tot pr ps = none) := by
  by_cases hvt : vt = "initial" <;>
    by_cases hqt : (200 : ℚ) ≤ t <;>
      by_cases hpr : pr = 0 <;>
        by_cases hpss : ps = 0 <;>
          by_cases hm : (20000 : ℚ) ≤ tot <;>
            simp [checkForCompletion, quietPeriod, hvt, hqt, hpr, hpss, hm, not_le,
              Nat.pos_of_ne_zero, ge_iff_le] <;>
              first | tauto | omega | linarith

/-- Witness for C3 amended: a route-change check with a pending request
at the 20000 ms ceiling completes with route_change_timeout. -/
theorem loading_completion_reason_characterization_witness :
    (¬ (quietPeriod ≤ (0 : ℚ) ∧ (1 : ℕ) = 0 ∧ (0 : ℕ) = 0)) ∧
    ((20000 : ℚ) ≤ 20000) ∧
    checkForCompletion "route_change" 0 20000 1 0 =
      some (if ("route_change" : String) = "initial" then "max_time_reached"
            else "route_change_timeout") :=
  ⟨by decide, by decide,
   (loading_completion_reason_characterization "route_change" 0 20000 1 0).2.1
     (by decide) (by decide)⟩

/-- C10: whenever the tracker completes (from a not-yet-complete state),
the loading_time record carries pendingRequestsCount = 0 and
pendingResourcesCount = 0, because cleanup clears both pending sets
before the record is built; the activity sources and detailed ring in
the record are the ones captured before cleanup. -/
theorem loading_record_pending_counts_zero (s : TrackerState) (reason : String)
    (h : s.isComplete = false) :
    (trackerComplete s reason).2 =
      some { loadingTime := round (s.lastActivityTime - s.baselineTime)
           , reason := reason
           , activitySources := s.activitySources
           , detailedActivities := s.detailedActivities
           , pendingRequestsCount := 0
           , pendingResourcesCount := 0 } ∧
    (trackerComplete s reason).1.pendingRequests = [] ∧
    (trackerComplete s reason).1.pendingResources = [] := by
  unfold trackerComplete trackerCleanup
  simp [h]

/-- Witness for C10 at a tracker state with non-empty pending sets. -/
theorem loading_record_pending_counts_zero_witness :
    (TrackerState.mk 1000 1500 false true ["resource", "xhr"]
        [("resource", 1200)] ["req1"] ["res1"]).isComplete = false ∧
    ((trackerComplete
        (TrackerState.mk 1000 1500 false true ["resource", "xhr"]
          [("resource", 1200)] ["req1"] ["res1"]) "activity_quiet").2 =
      some { loadingTime := round ((1500 : ℚ) - 1000)
           , reason := "activity_quiet"
           , activitySources := ["resource", "xhr"]
           , detailedActivities := [("resource", 1200)]
           , pendingRequestsCount := 0
           , pendingResourcesCount := 0 } ∧
     (trackerComplete
        (TrackerState.mk 1000 1500 false true ["resource", "xhr"]
          [("resource", 1200)] ["req1"] ["res1"]) "activity_quiet").1.pendingRequests = [] ∧
     (trackerComplete
        (TrackerState.mk 1000 1500 false true ["resource", "xhr"]
          [("resource", 1200)] ["req1"] ["res1"]) "activity_quiet").1.pendingResources = []) :=
  ⟨by decide,
   loading_record_pending_counts_zero _ "activity_quiet" (by decide)⟩

/-- Helper: members of an archive after archiveView come from the old
history or are the trimmed new entry. -/
theorem mem_archiveView {h : List ArchivedView} {v : View} {b : ArchivedView}
    (hb : b ∈ archiveView h v) : b ∈ h ∨ b = trimView v := by
  simp only [archiveView] at hb
  split at hb
  · have hb2 : b ∈ h ++ [trimView v] := List.mem_of_mem_tail hb
    simpa using hb2
  · simpa using hb

theorem vmInv_completeView {s : VMState} (hs : vmInv s) (reason : String) :
    vmInv (completeView s reason) := by
  obtain ⟨h1, h2, h3, h4⟩ := hs
  unfold completeView
  cases hc : s.currentView with
  | none => exact ⟨h1, h2, h3, h4⟩
  | some v =>
    dsimp only
    by_cases hvc : v.isCompleted = true
    · rw [if_pos hvc]
      exact ⟨h1, h2, h3, h4⟩
    · rw [if_neg hvc]
      refine ⟨?_, ?_, ?_, ?_⟩
      · intro a ha
        rcases mem_archiveView ha with ha2 | ha2
        · exact h1 a ha2
        · subst ha2
          simp [trimView]
      · intro w hw
        simp only [vmViews, List.mem_append, List.mem_singleton, List.mem_map] at hw
        rcases hw with hw | ⟨a, ha, rfl⟩
        · subst hw
          have hmem : (v.id, v.isCompleted, v.isActive) ∈ vmViews s := by
            simp [vmViews, hc]
          simpa using h2 _ hmem
        · rcases mem_archiveView ha with ha2 | ha2
          · have hmem : (a.id, a.isCompleted, a.isActive) ∈ vmViews s := by
              simp only [vmViews, hc, List.mem_append, List.mem_singleton, List.mem_map]
              right
              exact ⟨a, ha2, rfl⟩
            simpa using h2 _ hmem
          · subst ha2
            have hmem : (v.id, v.isCompleted, v.isActive) ∈ vmViews s := by
              simp [vmViews, hc]
            simpa [trimView] using h2 _ hmem
      · intro v2 hv2 hcc
        simp at hv2
        subst hv2
        rfl
      · intro a ha v2 hv2 hid
        simp at hv2
        subst hv2
        rfl


theorem mem_vmViews_of_current {s : VMState} {v : View} (hc : s.currentView = some v) :
    (v.id, v.isCompleted, v.isActive) ∈ vmViews s := by
  unfold vmViews
  rw [hc]
  simp

theorem mem_vmViews_of_hist {s : VMState} {a : ArchivedView} (ha : a ∈ s.viewHistory) :
    (a.id, a.isCompleted, a.isActive) ∈ vmViews s := by
  unfold vmViews
  exact List.mem_append_right _ (List.mem_map_of_mem _ ha)

theorem vmInv_setCurrent {s : VMState} (hs : vmInv s) {v v2 : View}
    (hc : s.currentView = some v) (hid : v2.id = v.id)
    (hcpl : v2.isCompleted = v.isCompleted) (hact : v2.isActive = v.isActive) :
    vmInv { s with currentView := some v2 } := by
  obtain ⟨h1, h2, h3, h4⟩ := hs
  refine ⟨h1, ?_, ?_, ?_⟩
  · intro w hw
    simp only [vmViews, List.mem_append, List.mem_singleton, List.mem_map] at hw
    rcases hw with hw | ⟨a, ha, rfl⟩
    · subst hw
      have := h2 _ (mem_vmViews_of_current hc)
      simpa [hid] using this
    · simpa using h2 _ (mem_vmViews_of_hist ha)
  · intro v3 hv3 hcc
    simp at hv3
    subst hv3
    rw [hact]
    rw [hcpl] at hcc
    exact h3 v hc hcc
  · intro a ha v3 hv3 h5
    simp at hv3
    subst hv3
    rw [hcpl]
    rw [hid] at h5
    exact h4 a ha v hc h5

theorem vmInv_startNewView {s : VMState} (hs : vmInv s) (vtype url : String) :
    vmInv (startNewView s vtype url) := by
  have hmain : ∀ s1 : VMState, vmInv s1 →
      vmInv { s1 with currentView := some (createView s1.nextId vtype url),
                      nextId := s1.nextId + 1 } := by
    intro s1 hs1
    obtain ⟨g1, g2, g3, g4⟩ := hs1
    refine ⟨g1, ?_, ?_, ?_⟩
    · intro w hw
      simp only [vmViews, List.mem_append, List.mem_singleton, List.mem_map] at hw
      rcases hw with hw | ⟨a, ha, rfl⟩
      · subst hw
        simp [createView]
      · have := g2 _ (mem_vmViews_of_hist ha)
        simp
        omega
    · intro v2 hv2 hcc
      simp at hv2
      subst hv2
      simp [createView] at hcc
    · intro a ha v2 hv2 hid
      simp at hv2
      subst hv2
      have := g2 _ (mem_vmViews_of_hist ha)
      simp [createView] at hid
      omega
  unfold startNewView
  cases hc : s.currentView with
  | none => exact hmain s ⟨hs.1, hs.2.1, hs.2.2.1, hs.2.2.2⟩
  | some v =>
    dsimp only
    by_cases hvc : (¬ v.isCompleted = true)
    · rw [if_pos hvc]
      exact hmain _ (vmInv_completeView hs _)
    · rw [if_neg hvc]
      exact hmain s hs

theorem vmInv_addResource {s : VMState} (hs : vmInv s) (r : ℕ) :
    vmInv (addResource s r) := by
  unfold addResource
  cases hc : s.currentView with
  | none => exact hs
  | some v =>
    dsimp only
    by_cases hva : v.isActive = true
    · rw [if_pos hva]
      exact vmInv_setCurrent hs hc rfl rfl rfl
    · rw [if_neg hva]
      exact hs

theorem vmInv_addAjaxRequest {s : VMState} (hs : vmInv s) (r : ℕ) :
    vmInv (addAjaxRequest s r) := by
  unfold addAjaxRequest
  cases hc : s.currentView with
  | none => exact hs
  | some v =>
    dsimp only
    by_cases hva : v.isActive = true
    · rw [if_pos hva]
      exact vmInv_setCurrent hs hc rfl rfl rfl
    · rw [if_neg hva]
      exact hs

theorem vmInv_addError {s : VMState} (hs : vmInv s) (r : ℕ) :
    vmInv (addError s r) := by
  unfold addError
  cases hc : s.currentView with
  | none => exact hs
  | some v =>
    dsimp only
    by_cases hva : v.isActive = true
    · rw [if_pos hva]
      exact vmInv_setCurrent hs hc rfl rfl rfl
    · rw [if_neg hva]
      exact hs

theorem vmInv_addEvent {s : VMState} (hs : vmInv s) (r : ℕ) :
    vmInv (addEvent s r) := by
  unfold addEvent
  cases hc : s.currentView with
  | none => exact hs
  | some v =>
    dsimp only
    by_cases hva : v.isActive = true
    · rw [if_pos hva]
      exact vmInv_setCurrent hs hc rfl rfl rfl
    · rw [if_neg hva]
      exact hs

theorem vmInv_step {s : VMState} (hs : vmInv s) (op : VMOp) :
    vmInv (vmStep s op) := by
  cases op with
  | startNewView vtype url => exact vmInv_startNewView hs vtype url
  | completeView reason => exact vmInv_completeView hs reason
  | addResource r => exact vmInv_addResource hs r
  | addAjaxRequest r => exact vmInv_addAjaxRequest hs r
  | addError r => exact vmInv_addError hs r
  | addEvent r => exact vmInv_addEvent hs r

theorem vmInv_run (ops : List VMOp) {s : VMState} (hs : vmInv s) :
    vmInv (vmRun s ops) := by
  induction ops generalizing s with
  | nil => exact hs
  | cons op ops ih => exact ih (vmInv_step hs op)


theorem vmInv_init : vmInv VMState.init := by
  refine ⟨?_, ?_, ?_, ?_⟩ <;> simp [VMState.init, vmViews]

theorem vmActiveCount_le_one {s : VMState} (hs : vmInv s) : vmActiveCount s ≤ 1 := by
  obtain ⟨h1, _, _, _⟩ := hs
  unfold vmActiveCount vmViews
  rw [List.countP_append]
  have hz : (s.viewHistory.map (fun a => (a.id, a.isCompleted, a.isActive))).countP
      (fun w => decide (w.2.2 = true)) = 0 := by
    rw [List.countP_eq_zero]
    intro w hw
    simp only [List.mem_map] at hw
    obtain ⟨a, ha, rfl⟩ := hw
    simpa using (h1 a ha).2
  rw [hz]
  cases s.currentView with
  | none => simp
  | some v =>
    have := List.countP_le_length (l := [(v.id, v.isCompleted, v.isActive)])
      (p := fun w => decide (w.2.2 = true))
    simp at this ⊢
    omega

theorem completed_allCopies {s : VMState} (hs : vmInv s) {i : ℕ}
    (h : vmCompleted s i = true) : i < s.nextId ∧ allCopiesCompleted s i := by
  obtain ⟨h1, h2, h3, h4⟩ := hs
  unfold vmCompleted at h
  rw [List.any_eq_true] at h
  obtain ⟨w, hw, hwp⟩ := h
  simp only [decide_eq_true_eq] at hwp
  obtain ⟨hwi, hwc⟩ := hwp
  constructor
  · rw [← hwi]
    exact h2 _ hw
  · intro w2 hw2 hw2i
    unfold vmViews at hw2
    rw [List.mem_append] at hw2
    rcases hw2 with hw2 | hw2
    · -- w2 is the current-view record
      cases hc : s.currentView with
      | none => rw [hc] at hw2; simp at hw2
      | some v =>
        rw [hc] at hw2
        simp at hw2
        subst hw2
        simp only at hw2i
        -- need v.isCompleted = true; find the completed witness
        have hvc : v.isCompleted = true := by
          unfold vmViews at hw
          rw [List.mem_append] at hw
          rcases hw with hw | hw
          · rw [hc] at hw
            simp at hw
            rw [hw] at hwc
            exact hwc
          · rw [List.mem_map] at hw
            obtain ⟨a, ha, rfl⟩ := hw
            exact h4 a ha v hc (hw2i.trans hwi.symm)
        exact ⟨hvc, h3 v hc hvc⟩
    · rw [List.mem_map] at hw2
      obtain ⟨a, ha, rfl⟩ := hw2
      exact ⟨(h1 a ha).1, (h1 a ha).2⟩

theorem allCopies_setCurrent {s : VMState} {i : ℕ} (hall : allCopiesCompleted s i)
    {v v2 : View} (hc : s.currentView = some v) (hid : v2.id = v.id)
    (hcpl : v2.isCompleted = v.isCompleted) (hact : v2.isActive = v.isActive) :
    allCopiesCompleted { s with currentView := some v2 } i := by
  intro w hw hwi
  simp only [vmViews, List.mem_append, List.mem_singleton, List.mem_map] at hw
  rcases hw with hw | ⟨a, ha, rfl⟩
  · subst hw
    simp only at hwi
    have := hall _ (mem_vmViews_of_current hc) (by rw [← hid]; exact hwi)
    simpa [hcpl, hact] using this
  · exact hall _ (mem_vmViews_of_hist ha) hwi

theorem allCopies_completeView {s : VMState} {i : ℕ} (hall : allCopiesCompleted s i)
    (reason : String) : allCopiesCompleted (completeView s reason) i := by
  unfold completeView
  cases hc : s.currentView with
  | none => exact hall
  | some v =>
    dsimp only
    by_cases hvc : v.isCompleted = true
    · rw [if_pos hvc]
      exact hall
    · rw [if_neg hvc]
      intro w hw hwi
      simp only [vmViews, List.mem_append, List.mem_singleton, List.mem_map] at hw
      rcases hw with hw | ⟨a, ha, rfl⟩
      · subst hw
        exact ⟨rfl, rfl⟩
      · rcases mem_archiveView ha with ha2 | ha2
        · exact hall _ (mem_vmViews_of_hist (s := s) ha2) hwi
        · subst ha2
          exact ⟨rfl, rfl⟩

theorem completeView_nextId (s : VMState) (reason : String) :
    (completeView s reason).nextId = s.nextId := by
  unfold completeView
  cases s.currentView with
  | none => rfl
  | some v =>
    dsimp only
    by_cases hvc : v.isCompleted = true
    · rw [if_pos hvc]
    · rw [if_neg hvc]

theorem addResource_nextId (s : VMState) (r : ℕ) :
    (addResource s r).nextId = s.nextId := by
  unfold addResource
  cases s.currentView with
  | none => rfl
  | some v =>
    dsimp only
    split <;> rfl

theorem addAjaxRequest_nextId (s : VMState) (r : ℕ) :
    (addAjaxRequest s r).nextId = s.nextId := by
  unfold addAjaxRequest
  cases s.currentView with
  | none => rfl
  | some v =>
    dsimp only
    split <;> rfl

theorem addError_nextId (s : VMState) (r : ℕ) :
    (addError s r).nextId = s.nextId := by
  unfold addError
  cases s.currentView with
  | none => rfl
  | some v =>
    dsimp only
    split <;> rfl

theorem addEvent_nextId (s : VMState) (r : ℕ) :
    (addEvent s r).nextId = s.nextId := by
  unfold addEvent
  cases s.currentView with
  | none => rfl
  | some v =>
    dsimp only
    split <;> rfl

theorem allCopies_step {s : VMState} {i : ℕ} (hlt : i < s.nextId)
    (hall : allCopiesCompleted s i) (op : VMOp) :
    allCopiesCompleted (vmStep s op) i ∧ i < (vmStep s op).nextId := by
  cases op with
  | completeView reason =>
    refine ⟨allCopies_completeView hall reason, ?_⟩
    rw [vmStep, completeView_nextId]
    exact hlt
  | startNewView vtype url =>
    have hmain : ∀ s1 : VMState, i < s1.nextId → allCopiesCompleted s1 i →
        allCopiesCompleted { s1 with currentView := some (createView s1.nextId vtype url),
                                     nextId := s1.nextId + 1 } i ∧
        i < s1.nextId + 1 := by
      intro s1 hlt1 hall1
      refine ⟨?_, by omega⟩
      intro w hw hwi
      simp only [vmViews, List.mem_append, List.mem_singleton, List.mem_map] at hw
      rcases hw with hw | ⟨a, ha, rfl⟩
      · subst hw
        simp only [createView] at hwi
        omega
      · exact hall1 _ (mem_vmViews_of_hist ha) hwi
    show allCopiesCompleted (startNewView s vtype url) i ∧ i < (startNewView s vtype url).nextId
    unfold startNewView
    cases hc : s.currentView with
    | none => exact hmain s hlt hall
    | some v =>
      dsimp only
      by_cases hvc : (¬ v.isCompleted = true)
      · rw [if_pos hvc]
        exact hmain _ (by rw [completeView_nextId]; exact hlt)
          (allCopies_completeView hall _)
      · rw [if_neg hvc]
        exact hmain s hlt hall
  | addResource r =>
    refine ⟨?_, ?_⟩
    swap
    · show i < (addResource s r).nextId
      rw [addResource_nextId]
      exact hlt
    show allCopiesCompleted (addResource s r) i
    unfold addResource
    cases hc : s.currentView with
    | none => exact hall
    | some v =>
      dsimp only
      by_cases hva : v.isActive = true
      · rw [if_pos hva]
        exact allCopies_setCurrent hall hc rfl rfl rfl
      · rw [if_neg hva]
        exact hall
  | addAjaxRequest r =>
    refine ⟨?_, ?_⟩
    swap
    · show i < (addAjaxRequest s r).nextId
      rw [addAjaxRequest_nextId]
      exact hlt
    show allCopiesCompleted (addAjaxRequest s r) i
    unfold addAjaxRequest
    cases hc : s.currentView with
    | none => exact hall
    | some v =>
      dsimp only
      by_cases hva : v.isActive = true
      · rw [if_pos hva]
        exact allCopies_setCurrent hall hc rfl rfl rfl
      · rw [if_neg hva]
        exact hall
  | addError r =>
    refine ⟨?_, ?_⟩
    swap
    · show i < (addError s r).nextId
      rw [addError_nextId]
      exact hlt
    show allCopiesCompleted (addError s r) i
    unfold addError
    cases hc : s.currentView with
    | none => exact hall
    | some v =>
      dsimp only
      by_cases hva : v.isActive = true
      · rw [if_pos hva]
        exact allCopies_setCurrent hall hc rfl rfl rfl
      · rw [if_neg hva]
        exact hall
  | addEvent r =>
    refine ⟨?_, ?_⟩
    swap
    · show i < (addEvent s r).nextId
      rw [addEvent_nextId]
      exact hlt
    show allCopiesCompleted (addEvent s r) i
    unfold addEvent
    cases hc : s.currentView with
    | none => exact hall
    | some v =>
      dsimp only
      by_cases hva : v.isActive = true
      · rw [if_pos hva]
        exact allCopies_setCurrent hall hc rfl rfl rfl
      · rw [if_neg hva]
        exact hall

theorem allCopies_run (ops : List VMOp) {s : VMState} {i : ℕ} (hlt : i < s.nextId)
    (hall : allCopiesCompleted s i) :
    allCopiesCompleted (vmRun s ops) i ∧ i < (vmRun s ops).nextId := by
  induction ops generalizing s with
  | nil => exact ⟨hall, hlt⟩
  | cons op ops ih =>
    obtain ⟨ha, hb⟩ := allCopies_step hlt hall op
    exact ih hb ha


theorem archiveView_length_le {h : List ArchivedView} {v : View}
    (hh : h.length ≤ maxViewHistory) : (archiveView h v).length ≤ maxViewHistory := by
  simp only [archiveView]
  split
  · rename_i hgt
    simp only [List.length_tail, List.length_append, List.length_singleton]
    omega
  · rename_i hle
    simp only [List.length_append, List.length_singleton] at hle ⊢
    omega

theorem archiveView_getLast (h : List ArchivedView) (v : View) :
    (archiveView h v).getLast? = some (trimView v) := by
  simp only [archiveView]
  split
  · rename_i hgt
    cases h with
    | nil => simp [maxViewHistory] at hgt
    | cons hd tl =>
      simp only [List.cons_append, List.tail_cons]
      exact List.getLast?_concat _
  · exact List.getLast?_concat _

theorem archiveView_evict {h : List ArchivedView} {v : View}
    (hlen : h.length = maxViewHistory) :
    archiveView h v = h.tail ++ [trimView v] := by
  have hgt : (h ++ [trimView v]).length > maxViewHistory := by
    simp only [List.length_append, List.length_singleton]
    omega
  simp only [archiveView]
  rw [if_pos hgt]
  cases h with
  | nil => simp [maxViewHistory] at hlen
  | cons hd tl => simp

theorem completeView_histLen {s : VMState} (hl : s.viewHistory.length ≤ maxViewHistory)
    (reason : String) :
    (completeView s reason).viewHistory.length ≤ maxViewHistory := by
  unfold completeView
  cases s.currentView with
  | none => exact hl
  | some v =>
    dsimp only
    split
    · exact hl
    · exact archiveView_length_le hl

theorem vmStep_histLen {s : VMState} (hl : s.viewHistory.length ≤ maxViewHistory)
    (op : VMOp) : (vmStep s op).viewHistory.length ≤ maxViewHistory := by
  cases op with
  | completeView reason => exact completeView_histLen hl reason
  | startNewView vtype url =>
    show (startNewView s vtype url).viewHistory.length ≤ maxViewHistory
    unfold startNewView
    cases s.currentView with
    | none => exact hl
    | some v =>
      dsimp only
      split
      · exact completeView_histLen hl _
      · exact hl
  | addResource r =>
    show (addResource s r).viewHistory.length ≤ maxViewHistory
    unfold addResource
    cases s.currentView with
    | none => exact hl
    | some v =>
      dsimp only
      split <;> exact hl
  | addAjaxRequest r =>
    show (addAjaxRequest s r).viewHistory.length ≤ maxViewHistory
    unfold addAjaxRequest
    cases s.currentView with
    | none => exact hl
    | some v =>
      dsimp only
      split <;> exact hl
  | addError r =>
    show (addError s r).viewHistory.length ≤ maxViewHistory
    unfold addError
    cases s.currentView with
    | none => exact hl
    | some v =>
      dsimp only
      split <;> exact hl
  | addEvent r =>
    show (addEvent s r).viewHistory.length ≤ maxViewHistory
    unfold addEvent
    cases s.currentView with
    | none => exact hl
    | some v =>
      dsimp only
      split <;> exact hl

theorem vmRun_histLen (ops : List VMOp) {s : VMState}
    (hl : s.viewHistory.length ≤ maxViewHistory) :
    (vmRun s ops).viewHistory.length ≤ maxViewHistory := by
  induction ops generalizing s with
  | nil => exact hl
  | cons op ops ih => exact ih (vmStep_histLen hl op)


/-- C2: over every sequence of ViewManager operations from the initial
state, at most one view record is active at any instant; once a view id
is recorded as completed, every copy of it after any further operations
stays completed and inactive; and completeView on an already-completed
current view is a no-op. -/
theorem view_lifecycle_single_active_and_monotonic :
    (∀ ops : List VMOp, vmActiveCount (vmRun VMState.init ops) ≤ 1) ∧
    (∀ (ops ops2 : List VMOp) (i : ℕ),
       vmCompleted (vmRun VMState.init ops) i = true →
       ∀ w ∈ vmViews (vmRun VMState.init (ops ++ ops2)), w.1 = i →
         w.2.1 = true ∧ w.2.2 = false) ∧
    (∀ (s : VMState) (v : View) (reason : String),
       s.currentView = some v → v.isCompleted = true → completeView s reason = s) := by
  refine ⟨?_, ?_, ?_⟩
  · intro ops
    exact vmActiveCount_le_one (vmInv_run ops vmInv_init)
  · intro ops ops2 i h w hw hwi
    have hs := vmInv_run ops vmInv_init
    obtain ⟨hlt, hall⟩ := completed_allCopies hs h
    have hrun : vmRun VMState.init (ops ++ ops2) = vmRun (vmRun VMState.init ops) ops2 := by
      unfold vmRun
      exact List.foldl_append _ _ _ _
    rw [hrun] at hw
    exact (allCopies_run ops2 hlt hall).1 w hw hwi
  · intro s v reason hc hvc
    unfold completeView
    rw [hc]
    dsimp only
    rw [if_pos hvc]

/-- Witness for C2: a concrete run where view 0 is completed, a second
view starts, and a repeated completeView leaves the state unchanged. -/
theorem view_lifecycle_witness :
    (vmCompleted (vmRun VMState.init
        [VMOp.startNewView "initial" "u", VMOp.completeView "nav"]) 0 = true ∧
     (∀ w ∈ vmViews (vmRun VMState.init
        ([VMOp.startNewView "initial" "u", VMOp.completeView "nav"] ++
         [VMOp.startNewView "route_change" "v", VMOp.addResource 5])), w.1 = 0 →
       w.2.1 = true ∧ w.2.2 = false)) ∧
    ((VMState.mk (some (View.mk 0 "initial" "u" true false (some "nav") [] [] [] []))
        [] 1).currentView =
       some (View.mk 0 "initial" "u" true false (some "nav") [] [] [] []) ∧
     completeView
        (VMState.mk (some (View.mk 0 "initial" "u" true false (some "nav") [] [] [] []))
          [] 1) "again" =
       VMState.mk (some (View.mk 0 "initial" "u" true false (some "nav") [] [] [] []))
         [] 1) :=
  ⟨⟨by decide,
    view_lifecycle_single_active_and_monotonic.2.1 _ _ 0 (by decide)⟩,
   ⟨rfl,
    view_lifecycle_single_active_and_monotonic.2.2 _ _ "again" rfl rfl⟩⟩


/-- C6: archiving replaces the four containers by exactly their
lengths, appends the trimmed entry at the end of the history, keeps the
history at no more than 10 entries over every operation sequence, and
evicts the oldest entry when the cap is reached. -/
theorem archive_preserves_counts_and_caps_history :
    (∀ v : View,
       (trimView v).resources = v.resources.length ∧
       (trimView v).ajaxRequests = v.ajaxRequests.length ∧
       (trimView v).errors = v.errors.length ∧
       (trimView v).events = v.events.length) ∧
    (∀ (h : List ArchivedView) (v : View),
       (archiveView h v).getLast? = some (trimView v)) ∧
    (∀ (h : List ArchivedView) (v : View),
       h.length ≤ maxViewHistory → (archiveView h v).length ≤ maxViewHistory) ∧
    (∀ (h : List ArchivedView) (v : View),
       h.length = maxViewHistory → archiveView h v = h.tail ++ [trimView v]) ∧
    (∀ ops : List VMOp,
       (vmRun VMState.init ops).viewHistory.length ≤ maxViewHistory) := by
  refine ⟨?_, ?_, ?_, ?_, ?_⟩
  · intro v
    exact ⟨rfl, rfl, rfl, rfl⟩
  · intro h v
    exact archiveView_getLast h v
  · intro h v hh
    exact archiveView_length_le hh
  · intro h v hlen
    exact archiveView_evict hlen
  · intro ops
    refine vmRun_histLen ops ?_
    simp [VMState.init, maxViewHistory]

/-- Witness for C6: archiving an 11th view onto a full 10-entry history
keeps the bound and drops the oldest entry. -/
theorem archive_preserves_counts_witness :
    ((List.replicate 10
        (ArchivedView.mk 7 "initial" "u" true false (some "done") 1 2 3 4)).length ≤
      maxViewHistory) ∧
    ((List.replicate 10
        (ArchivedView.mk 7 "initial" "u" true false (some "done") 1 2 3 4)).length =
      maxViewHistory) ∧
    (archiveView
        (List.replicate 10
          (ArchivedView.mk 7 "initial" "u" true false (some "done") 1 2 3 4))
        (View.mk 8 "route_change" "v" true false (some "nav") [5, 6] [7] [] [9])).length ≤
      maxViewHistory ∧
    archiveView
        (List.replicate 10
          (ArchivedView.mk 7 "initial" "u" true false (some "done") 1 2 3 4))
        (View.mk 8 "route_change" "v" true false (some "nav") [5, 6] [7] [] [9]) =
      (List.replicate 10
          (ArchivedView.mk 7 "initial" "u" true false (some "done") 1 2 3 4)).tail ++
        [trimView (View.mk 8 "route_change" "v" true false (some "nav") [5, 6] [7] [] [9])] :=
  ⟨by decide, by decide,
   archive_preserves_counts_and_caps_history.2.2.1 _ _ (by decide),
   archive_preserves_counts_and_caps_history.2.2.2.1 _ _ (by decide)⟩

/-- Helper: the propositional reading of the CLS significance test. -/
theorem hasSignificantCLSChange_iff (c l : Option ℚ) :
    hasSignificantCLSChange c l = true ↔
      ((∃ x y, c = some x ∧ l = some y ∧ |x - y| ≥ (1 : ℚ) / 100) ∨
       (∃ x, c = some x ∧ l = none ∧ 0 < x)) := by
  cases c <;> cases l <;> simp [hasSignificantCLSChange]

/-- Helper: the propositional reading of the INP significance test. -/
theorem hasSignificantINPChange_iff (c l : Option ℚ) :
    hasSignificantINPChange c l = true ↔
      ((∃ x y, c = some x ∧ l = some y ∧ |x - y| ≥ (50 : ℚ)) ∨
       (∃ x, c = some x ∧ l = none ∧ 0 < x)) := by
  cases c <;> cases l <;> simp [hasSignificantINPChange]

/-- Helper: the propositional reading of the new-vital test. -/
theorem newVitalAppeared_iff (c l : Option ℚ) :
    newVitalAppeared c l = true ↔ (c ≠ none ∧ l = none) := by
  cases c <;> cases l <;> simp [newVitalAppeared]

/-- C5 counterexample: with an empty last-sent baseline and a view
holding 3 resources, no vitals, no AJAX and no errors, none of the six
listed conditions holds (the resource count grew only by 3), yet
hasSignificantChanges returns true, via its any-data-on-first-update
clause. -/
theorem significant_changes_counterexample :
    hasSignificantChanges
        (ContMetrics.mk none none none none none none none 3 0 0) none = true ∧
    specSignificantChanges
        (ContMetrics.mk none none none none none none none 3 0 0) none = false := by
  decide

/-- C5 amended: hasSignificantChanges returns true exactly when CLS
changed by at least 0.01 (or first became positive against a null
baseline), INP changed by at least 50 ms (or first became positive),
one of LCP/FCP/FID/TTFB/loading_time is newly non-null, the resource
count grew by at least 5, the AJAX count grew by at least 3, the error
count increased, or nothing was sent yet and the metrics hold any data
at all. -/
theorem hasSignificantChanges_characterization
    (cur : ContMetrics) (last : Option ContMetrics) :
    hasSignificantChanges cur last = true ↔
      (((∃ x y, cur.CLS = some x ∧ lastVital last (fun m => m.CLS) = some y ∧
           |x - y| ≥ (1 : ℚ) / 100) ∨
        (∃ x, cur.CLS = some x ∧ lastVital last (fun m => m.CLS) = none ∧ 0 < x) ∨
        (∃ x y, cur.INP = some x ∧ lastVital last (fun m => m.INP) = some y ∧
           |x - y| ≥ (50 : ℚ)) ∨
        (∃ x, cur.INP = some x ∧ lastVital last (fun m => m.INP) = none ∧ 0 < x) ∨
        (cur.LCP ≠ none ∧ lastVital last (fun m => m.LCP) = none) ∨
        (cur.FCP ≠ none ∧ lastVital last (fun m => m.FCP) = none) ∨
        (cur.FID ≠ none ∧ lastVital last (fun m => m.FID) = none) ∨
        (cur.TTFB ≠ none ∧ lastVital last (fun m => m.TTFB) = none) ∨
        (cur.loading_time ≠ none ∧ lastVital last (fun m => m.loading_time) = none)) ∨
       ((lastCount last (fun m => m.resourceCount) < cur.resourceCount ∧
         cur.resourceCount - lastCount last (fun m => m.resourceCount) ≥ 5) ∨
        (lastCount last (fun m => m.ajaxCount) < cur.ajaxCount ∧
         cur.ajaxCount - lastCount last (fun m => m.ajaxCount) ≥ 3) ∨
        (lastCount last (fun m => m.errorCount) < cur.errorCount)) ∨
       (last = none ∧ hasAnyData cur = true)) := by
  have h1 : hasSignificantWebVitalsChange cur last = true ↔
      ((∃ x y, cur.CLS = some x ∧ lastVital last (fun m => m.CLS) = some y ∧
          |x - y| ≥ (1 : ℚ) / 100) ∨
       (∃ x, cur.CLS = some x ∧ lastVital last (fun m => m.CLS) = none ∧ 0 < x) ∨
       (∃ x y, cur.INP = some x ∧ lastVital last (fun m => m.INP) = some y ∧
          |x - y| ≥ (50 : ℚ)) ∨
       (∃ x, cur.INP = some x ∧ lastVital last (fun m => m.INP) = none ∧ 0 < x) ∨
       (cur.LCP ≠ none ∧ lastVital last (fun m => m.LCP) = none) ∨
       (cur.FCP ≠ none ∧ lastVital last (fun m => m.FCP) = none) ∨
       (cur.FID ≠ none ∧ lastVital last (fun m => m.FID) = none) ∨
       (cur.TTFB ≠ none ∧ lastVital last (fun m => m.TTFB) = none) ∨
       (cur.loading_time ≠ none ∧ lastVital last (fun m => m.loading_time) = none)) := by
    simp only [hasSignificantWebVitalsChange, Bool.or_eq_true,
      hasSignificantCLSChange_iff, hasSignificantINPChange_iff, newVitalAppeared_iff,
      or_assoc]
  have h2 : hasSignificantDataChange cur last = true ↔
      ((lastCount last (fun m => m.resourceCount) < cur.resourceCount ∧
        cur.resourceCount - lastCount last (fun m => m.resourceCount) ≥ 5) ∨
       (lastCount last (fun m => m.ajaxCount) < cur.ajaxCount ∧
        cur.ajaxCount - lastCount last (fun m => m.ajaxCount) ≥ 3) ∨
       (lastCount last (fun m => m.errorCount) < cur.errorCount)) := by
    simp only [hasSignificantDataChange, Bool.or_eq_true, Bool.and_eq_true,
      decide_eq_true_eq, gt_iff_lt, or_assoc]
  have h3 : (last.isNone && hasAnyData cur) = true ↔
      (last = none ∧ hasAnyData cur = true) := by
    simp [Option.isNone_iff_eq_none]
  simp only [hasSignificantChanges, Bool.or_eq_true]
  rw [h1, h2, h3, or_assoc]

set_option maxRecDepth 100000 in
/-- C4 counterexample: with one buffered error, a second error with the
identical content hash, identical message and source, arriving 50 ms
later, is recorded again: deduplication only starts once 5 errors are
buffered. -/
theorem error_dedup_counterexample :
    (mkErrData "error" "boom" "app.js" none 1000).errorId =
      (mkErrData "error" "boom" "app.js" none 1050).errorId ∧
    shouldSampleError [mkErrData "error" "boom" "app.js" none 1000]
        (mkErrData "error" "boom" "app.js" none 1050) = true ∧
    storeErrorData [mkErrData "error" "boom" "app.js" none 1000]
        (mkErrData "error" "boom" "app.js" none 1050) =
      ([mkErrData "error" "boom" "app.js" none 1000,
        mkErrData "error" "boom" "app.js" none 1050], true) := by
  refine ⟨rfl, ?_, ?_⟩
  · decide
  · decide

/-- C4 amended: every error is recorded while fewer than 5 errors are
buffered; from 5 buffered errors on, an error is dropped exactly when
some buffered entry matches its content hash (or fields, for entries
without ids) or one of the last 5 entries has the same message and
source strictly less than 100 ms earlier. -/
theorem error_dedup_characterization (buf : List ErrData) (e : ErrData) :
    (buf.length < 5 → shouldSampleError buf e = true) ∧
    (5 ≤ buf.length →
      (shouldSampleError buf e = false ↔
        ((∃ b ∈ buf, errDupCheck b e = true) ∨
         (∃ b ∈ buf.drop (buf.length - 5), errSimilarCheck b e = true)))) := by
  constructor
  · intro h
    unfold shouldSampleError
    rw [if_pos h]
  · intro h
    unfold shouldSampleError
    rw [if_neg (by omega)]
    dsimp only
    by_cases hd : buf.any (fun err => errDupCheck err e) = true
    · rw [if_pos hd]
      rw [List.any_eq_true] at hd
      simp only [eq_self_iff_true, true_iff]
      exact Or.inl hd
    · rw [if_neg hd]
      rw [List.any_eq_true] at hd
      simp only [List.any_eq_true, decide_eq_false_iff_not, decide_eq_true_eq]
      constructor
      · intro hsim
        right
        by_contra hno
        exact hsim (by simpa using hno)
      · intro hor hsim
        rcases hor with hdup | hsim2
        · exact hd hdup
        · simp at hsim
          obtain ⟨b, hb, hbs⟩ := hsim2
          exact absurd hbs (by simpa using hsim b hb)

set_option maxRecDepth 100000 in
/-- Witness for C4 amended: an empty buffer records everything, and a
full 5-entry buffer drops an exact duplicate of its third entry. -/
theorem error_dedup_characterization_witness :
    (([] : List ErrData).length < 5 ∧
     shouldSampleError [] (mkErrData "error" "a" "s.js" none 0) = true) ∧
    (5 ≤ ([mkErrData "error" "a" "s.js" none 0,
           mkErrData "error" "b" "s.js" none 10,
           mkErrData "error" "c" "s.js" none 20,
           mkErrData "error" "d" "s.js" none 30,
           mkErrData "error" "e" "s.js" none 40] : List ErrData).length ∧
     shouldSampleError
        [mkErrData "error" "a" "s.js" none 0,
         mkErrData "error" "b" "s.js" none 10,
         mkErrData "error" "c" "s.js" none 20,
         mkErrData "error" "d" "s.js" none 30,
         mkErrData "error" "e" "s.js" none 40]
        (mkErrData "error" "c" "s.js" none 5000) = false) :=
  ⟨⟨by decide,
    (error_dedup_characterization [] (mkErrData "error" "a" "s.js" none 0)).1 (by decide)⟩,
   ⟨by decide,
    ((error_dedup_characterization _ (mkErrData "error" "c" "s.js" none 5000)).2
        (by decide)).mpr
      (Or.inl ⟨mkErrData "error" "c" "s.js" none 20, by decide, by decide⟩)⟩⟩

end Optima
